import Mathlib

/-!
Verification of the IBM Cloud install-config validation code of the
`installer` repository.

The Go sources are shallowly embedded:
* the `field.Error` / `field.ErrorList` machinery of
  `k8s.io/apimachinery/pkg/util/validation/field` becomes `FieldError`,
  `List FieldError` and `toAggregate`;
* the remote API client becomes a structure of pure response functions
  (one fixed response per query, matching a mock client whose answers do
  not change between calls);
* `Validate` / `validateResourceGroup`
  (pkg/asset/installconfig/ibmcloud validation file),
  `ValidatePlatform` / `ValidateVPCConfig` / `ValidateMachinePool`
  (pkg/types/ibmcloud/validation/platform.go) and
  `GetZoneIDByName` (pkg/asset/installconfig/ibmcloud/client.go)
  are translated statement by statement.
-/

namespace Installer

/-- The five error kinds of `k8s.io/apimachinery`'s `field` package that
this code base produces (`ErrorTypeRequired`, `ErrorTypeInvalid`,
`ErrorTypeNotFound`, `ErrorTypeNotSupported`, `ErrorTypeInternal`). -/
inductive ErrorType where
  | required
  | invalid
  | notFound
  | notSupported
  | internalError
deriving DecidableEq

/-- `field.Error`: a single validation defect.  A `*field.Path` is
embedded as the list of its segments (`field.NewPath("platform").Child("ibmcloud")`
is `["platform", "ibmcloud"]`).  `badValue` is the offending value
rendered as a string (`""` stands for the `nil` bad value of
`field.Required` and `field.InternalError`). -/
structure FieldError where
  type : ErrorType
  field : List String
  badValue : String
  detail : String
deriving DecidableEq

/-- `field.Required(path, detail)`. -/
def FieldError.mkRequired (path : List String) (detail : String) : FieldError :=
  ⟨ErrorType.required, path, "", detail⟩

/-- `field.Invalid(path, value, detail)`. -/
def FieldError.mkInvalid (path : List String) (value detail : String) : FieldError :=
  ⟨ErrorType.invalid, path, value, detail⟩

/-- `field.NotFound(path, value)`. -/
def FieldError.mkNotFound (path : List String) (value : String) : FieldError :=
  ⟨ErrorType.notFound, path, value, ""⟩

/-- `field.NotSupported(path, value, validValues)`: the supported values
are rendered into the detail string. -/
def FieldError.mkNotSupported (path : List String) (value : String)
    (validValues : List String) : FieldError :=
  ⟨ErrorType.notSupported, path, value,
    "supported values: " ++ String.intercalate ", " validValues⟩

/-- `field.InternalError(path, err)`: the bad value is `nil` and the
detail carries the underlying error's message. -/
def FieldError.mkInternalError (path : List String) (err : String) : FieldError :=
  ⟨ErrorType.internalError, path, "", err⟩

/-- The rendering `(*field.Error).Error()`: `"<dotted path>: <body>"`,
used by `ErrorList.ToAggregate` to deduplicate messages. -/
def errorMessage (e : FieldError) : String :=
  String.intercalate "." e.field ++ ": " ++
    (match e.type with
     | ErrorType.required => "Required value: " ++ e.detail
     | ErrorType.invalid => "Invalid value: \"" ++ e.badValue ++ "\": " ++ e.detail
     | ErrorType.notFound => "Not found: \"" ++ e.badValue ++ "\""
     | ErrorType.notSupported => "Unsupported value: \"" ++ e.badValue ++ "\": " ++ e.detail
     | ErrorType.internalError => "Internal error: " ++ e.detail)

/-- The message-deduplication loop inside `ErrorList.ToAggregate`:
keeps the first error carrying each rendered message. -/
def dedupByMessage : List FieldError → List String → List FieldError
  | [], _ => []
  | e :: rest, seen =>
    if seen.contains (errorMessage e) then dedupByMessage rest seen
    else e :: dedupByMessage rest (errorMessage e :: seen)

/-- `ErrorList.ToAggregate` composed with `utilerrors.NewAggregate`:
`none` when the list is empty, otherwise one aggregate holding every
(message-distinct) accumulated error. -/
def toAggregate (list : List FieldError) : Option (List FieldError) :=
  match dedupByMessage list [] with
  | [] => none
  | es => some es

/-- `ibmcloud.MachinePool` (pkg/types/ibmcloud): the machine-pool
fragment; `ValidateMachinePool` never inspects it. -/
structure MachinePool where
  instanceType : String
deriving DecidableEq

/-- `ibmcloud.Platform` (pkg/types/ibmcloud/platform.go): the IBM Cloud
section of the install config. -/
structure Platform where
  region : String
  cisInstanceCRN : String
  clusterOSImage : String
  resourceGroup : String
  vpc : String
  vpcResourceGroup : String
  subnets : List String
  defaultMachinePlatform : Option MachinePool
deriving DecidableEq

/-- `types.InstallConfig`, restricted to the fields this code reads:
`BaseDomain`, the IBM Cloud platform fragment (`ic.IBMCloud`), the
control-plane pool and the compute pools. -/
structure InstallConfig where
  baseDomain : String
  ibmcloud : Platform
  controlPlane : Option MachinePool
  compute : List MachinePool
deriving DecidableEq

/-- `models.ResourceGroupv2` (bluemix-go), restricted to the fields the
code reads: `ID` and `Name`. -/
structure ResourceGroup where
  id : String
  name : String
deriving DecidableEq

/-- `cisv1.Zone` (bluemix-go), restricted to the fields
`GetZoneIDByName` reads: `Id`, `Name`, `Status`. -/
structure Zone where
  id : String
  name : String
  status : String
deriving DecidableEq

/-- The `API` interface (pkg/asset/installconfig/ibmcloud/client.go),
restricted to the calls relevant to the claims.  Each method is one
fixed response per query (`Except.error` is a failed call), matching a
deterministic mock client. -/
structure APIClient where
  getResourceGroups : Except String (List ResourceGroup)
  getCISInstance : String → Except String Unit
  getZoneIDByName : String → String → Except String String

/-- `validateResourceGroup(client, ic, fieldPath)`: when
`ic.IBMCloud.ResourceGroup` is non-empty, lists the resource groups
(`InternalError` on failure), scans them for an `ID` equal to the
configured identifier, and reports `Invalid` when none matches. -/
def validateResourceGroup (client : APIClient) (ic : InstallConfig)
    (fieldPath : List String) : List FieldError :=
  if ic.ibmcloud.resourceGroup ≠ "" then
    match client.getResourceGroups with
    | Except.error err =>
        [FieldError.mkInternalError (fieldPath ++ ["resourceGroup"]) err]
    | Except.ok resourceGroups =>
        let found := resourceGroups.any (fun rg => rg.id == ic.ibmcloud.resourceGroup)
        if ¬ found then
          [FieldError.mkInvalid (fieldPath ++ ["resourceGroup"])
            ic.ibmcloud.resourceGroup "invalid resource group ID"]
        else []
  else []

/-- `Validate(client, ic)`: accumulates `validateResourceGroup` under
`field.NewPath("platform").Child("ibmcloud")` and aggregates. -/
def Validate (client : APIClient) (ic : InstallConfig) : Option (List FieldError) :=
  toAggregate (validateResourceGroup client ic ["platform", "ibmcloud"])

/-- State-passing rendering of `validateResourceGroup`: the Go function
receives `ic` by pointer, so the embedding threads the config value
through every branch exactly as the source leaves it. -/
def validateResourceGroupSt (client : APIClient) (ic : InstallConfig)
    (fieldPath : List String) : List FieldError × InstallConfig :=
  if ic.ibmcloud.resourceGroup ≠ "" then
    match client.getResourceGroups with
    | Except.error err =>
        ([FieldError.mkInternalError (fieldPath ++ ["resourceGroup"]) err], ic)
    | Except.ok resourceGroups =>
        let found := resourceGroups.any (fun rg => rg.id == ic.ibmcloud.resourceGroup)
        if ¬ found then
          ([FieldError.mkInvalid (fieldPath ++ ["resourceGroup"])
            ic.ibmcloud.resourceGroup "invalid resource group ID"], ic)
        else ([], ic)
  else ([], ic)

/-- State-passing rendering of `Validate`: returns the aggregate and the
install config as the call leaves it. -/
def ValidateSt (client : APIClient) (ic : InstallConfig) :
    Option (List FieldError) × InstallConfig :=
  let r := validateResourceGroupSt client ic ["platform", "ibmcloud"]
  (toAggregate r.1, r.2)

/-- The static `Regions` map of
pkg/types/ibmcloud/validation/platform.go: short region name to long
region name, in source order. -/
def Regions : List (String × String) :=
  [("us-south", "US South (Dallas)"),
   ("us-east", "US East (Washington DC)"),
   ("eu-gb", "United Kindom (London)"),
   ("eu-de", "EU Germany (Frankfurt)"),
   ("jp-tok", "Japan (Tokyo)"),
   ("jp-osa", "Japan (Osaka)"),
   ("au-syd", "Australia (Sydney)"),
   ("ca-tor", "Canada (Toronto)")]

/-- `regionShortNames`: the keys of `Regions` (Go map iteration order is
arbitrary; this embedding fixes source order, which no claim depends
on). -/
def regionShortNames : List String := Regions.map Prod.fst

/-- The co-requirement detail string of `ValidateVPCConfig`. -/
def vpcDetails : String :=
  "if either one of the vpc or subnets fields is defined, they both must be defined"

/-- `ValidateVPCConfig(p, path)`: a purely static check (it takes no API
client); when `VPC` or `Subnets` is set, requires the other one too. -/
def ValidateVPCConfig (p : Platform) (path : List String) : List FieldError :=
  if p.vpc ≠ "" ∨ p.subnets.length > 0 then
    (if p.vpc = "" then [FieldError.mkRequired (path ++ ["vpc"]) vpcDetails] else []) ++
    (if p.subnets.length = 0 then [FieldError.mkRequired (path ++ ["subnets"]) vpcDetails] else [])
  else []

/-- `ValidateMachinePool(p, defaultMachinePlatform, path)`: the source
is a TODO stub returning the empty error list. -/
def ValidateMachinePool (p : Platform) (defaultMachinePlatform : MachinePool)
    (path : List String) : List FieldError :=
  []

/-- `ValidatePlatform(p, fldPath)`.  The CRN well-formedness test
`crn.Parse` lives in the external bluemix-go library, so it enters the
embedding as the parameter `crnParse` (`true` = parses without error). -/
def ValidatePlatform (crnParse : String → Bool) (p : Platform)
    (fldPath : List String) : List FieldError :=
  (if p.region = "" then
     [FieldError.mkRequired (fldPath ++ ["region"]) "region must be specified"]
   else if (Regions.lookup p.region).isSome then []
   else [FieldError.mkNotSupported (fldPath ++ ["region"]) p.region regionShortNames]) ++
  (if p.clusterOSImage = "" then
     [FieldError.mkRequired (fldPath ++ ["clusterOSImage"]) "clusterOSImage must be specified"]
   else []) ++
  (if p.cisInstanceCRN = "" then
     [FieldError.mkRequired (fldPath ++ ["cisInstanceCRN"]) "cisInstanceCRN must be specified"]
   else if crnParse p.cisInstanceCRN then []
   else [FieldError.mkInvalid (fldPath ++ ["cisInstanceCRN"]) p.cisInstanceCRN
          "cisInstanceCRN is not a valid IBM CRN"]) ++
  ValidateVPCConfig p fldPath ++
  (match p.defaultMachinePlatform with
   | some mp => ValidateMachinePool p mp (fldPath ++ ["defaultMachinePlatform"])
   | none => [])

/-- `(*Client).GetZoneIDByName(ctx, crn, name)`
(pkg/asset/installconfig/ibmcloud/client.go): lists the zones of the CIS
instance (`listZones` embeds `c.cisAPI.Zones().ListZones`), then returns
the `Id` of the first zone whose `Name` is `name` and whose `Status` is
`"active"`, and `"zone not found: <name>"` when the listing is empty or
the scan leaves the zone ID empty. -/
def GetZoneIDByName (listZones : String → Except String (List Zone))
    (crn name : String) : Except String String :=
  match listZones crn with
  | Except.error e => Except.error e
  | Except.ok zones =>
    if zones.length = 0 then Except.error ("zone not found: " ++ name)
    else
      let zoneID :=
        match zones.find? (fun z => z.name == name && z.status == "active") with
        | some z => z.id
        | none => ""
      if zoneID = "" then Except.error ("zone not found: " ++ name)
      else Except.ok zoneID

/-! ## Helper lemmas -/

/-- `validateResourceGroup` produces the empty list or a single error. -/
theorem validateResourceGroup_nil_or_singleton (client : APIClient)
    (ic : InstallConfig) (fieldPath : List String) :
    validateResourceGroup client ic fieldPath = [] ∨
    ∃ e, validateResourceGroup client ic fieldPath = [e] := by
  unfold validateResourceGroup
  split
  · split
    · exact Or.inr ⟨_, rfl⟩
    · dsimp only
      split
      · exact Or.inr ⟨_, rfl⟩
      · exact Or.inl rfl
  · exact Or.inl rfl

/-- Aggregating the empty list gives `none`. -/
theorem toAggregate_nil : toAggregate [] = none := rfl

/-- Aggregating a singleton keeps the error. -/
theorem toAggregate_singleton (e : FieldError) : toAggregate [e] = some [e] := by
  simp [toAggregate, dedupByMessage]

/-- The state-passing rendering agrees with the direct one and leaves
the install config untouched. -/
theorem validateResourceGroupSt_eq (client : APIClient) (ic : InstallConfig)
    (fieldPath : List String) :
    validateResourceGroupSt client ic fieldPath =
      (validateResourceGroup client ic fieldPath, ic) := by
  unfold validateResourceGroupSt validateResourceGroup
  split
  · split
    · rfl
    · dsimp only
      split
      · rfl
      · rfl
  · rfl

/-- `ValidateSt` returns `Validate`'s result and the unchanged config. -/
theorem ValidateSt_eq (client : APIClient) (ic : InstallConfig) :
    ValidateSt client ic = (Validate client ic, ic) := by
  unfold ValidateSt Validate
  rw [validateResourceGroupSt_eq]

/-! ## Claims -/

/-- Claim C1: `Validate(client, installConfig)` returns `nil` if and
only if the run accumulated zero `ValidationError`s; when the
accumulated list is non-empty it returns one aggregated error combining
every accumulated error, for every API client behavior and every
`InstallConfig`. -/
theorem validate_nil_iff_no_errors (client : APIClient) (ic : InstallConfig) :
    (Validate client ic = none ↔
      validateResourceGroup client ic ["platform", "ibmcloud"] = []) ∧
    (validateResourceGroup client ic ["platform", "ibmcloud"] ≠ [] →
      Validate client ic =
        some (validateResourceGroup client ic ["platform", "ibmcloud"])) := by
  rcases validateResourceGroup_nil_or_singleton client ic ["platform", "ibmcloud"]
    with h | ⟨e, h⟩
  · refine ⟨?_, fun hne => absurd h hne⟩
    rw [Validate, h, toAggregate_nil]
    simp
  · refine ⟨?_, fun _ => ?_⟩
    · rw [Validate, h, toAggregate_singleton]
      simp
    · rw [Validate, h, toAggregate_singleton]

/-- A client whose resource-group listing succeeds with a single group
whose ID matches nothing below; CIS and zone lookups fail. -/
def clientW : APIClient :=
  ⟨Except.ok [⟨"gid", "gname"⟩], fun _ => Except.ok (),
   fun _ _ => Except.error "zone not found"⟩

/-- A config whose `ResourceGroup` is `"not-found"`. -/
def icW : InstallConfig :=
  ⟨"valid.base.domain",
   ⟨"us-south", "crn:v1", "valid-rhcos-image", "not-found", "", "", [], none⟩,
   none, []⟩

theorem validate_nil_iff_no_errors_witness :
    validateResourceGroup clientW icW ["platform", "ibmcloud"] ≠ [] ∧
    Validate clientW icW =
      some (validateResourceGroup clientW icW ["platform", "ibmcloud"]) :=
  ⟨by decide, (validate_nil_iff_no_errors clientW icW).2 (by decide)⟩

/-- Claim C9: for every API client behavior and every `InstallConfig`,
the error list accumulated by `Validate` has at most one element: the
resource-group validator returns on its first error and is the only
validator `Validate` invokes. -/
theorem validate_at_most_one_error (client : APIClient) (ic : InstallConfig) :
    (validateResourceGroup client ic ["platform", "ibmcloud"]).length ≤ 1 ∧
    Validate client ic =
      toAggregate (validateResourceGroup client ic ["platform", "ibmcloud"]) := by
  refine ⟨?_, rfl⟩
  rcases validateResourceGroup_nil_or_singleton client ic ["platform", "ibmcloud"]
    with h | ⟨e, h⟩ <;> simp [h]

/-- Claim C7: for a fixed API client whose responses do not change
between calls, two successive invocations of `Validate` on the same
install config (the second one receiving the config value as the first
call left it) return identical results. -/
theorem validate_idempotent (client : APIClient) (ic : InstallConfig) :
    (ValidateSt client ic).1 = (ValidateSt client (ValidateSt client ic).2).1 ∧
    (ValidateSt client ic).1 = Validate client ic := by
  rw [ValidateSt_eq, ValidateSt_eq]
  exact ⟨rfl, rfl⟩

/-- Claim C8: `Validate` never mutates its `InstallConfig` argument:
the config after the call equals the input in every field (base domain,
platform fragment including `ResourceGroup`, control-plane and compute
pools). -/
theorem validate_no_mutation (client : APIClient) (ic : InstallConfig) :
    (ValidateSt client ic).2 = ic ∧
    (ValidateSt client ic).2.baseDomain = ic.baseDomain ∧
    (ValidateSt client ic).2.ibmcloud = ic.ibmcloud ∧
    (ValidateSt client ic).2.ibmcloud.resourceGroup = ic.ibmcloud.resourceGroup ∧
    (ValidateSt client ic).2.controlPlane = ic.controlPlane ∧
    (ValidateSt client ic).2.compute = ic.compute := by
  rw [ValidateSt_eq]
  exact ⟨rfl, rfl, rfl, rfl, rfl, rfl⟩

/-- A client whose resource-group listing succeeds with one group whose
ID is `"gid"` and whose name is `"some-name"`. -/
def rgClientMiss : APIClient :=
  ⟨Except.ok [⟨"gid", "some-name"⟩], fun _ => Except.ok (),
   fun _ _ => Except.error "zone not found"⟩

/-- A config whose `ResourceGroup` is `"not-found"`, matching no listed
group by ID or by name. -/
def rgConfigNotFound : InstallConfig :=
  ⟨"valid.base.domain",
   ⟨"us-south", "crn:v1", "valid-rhcos-image", "not-found", "", "", [], none⟩,
   none, []⟩

/-- Claim C2, counterexample: with a successful listing containing no
group matching `"not-found"` by ID or name, the resource-group validator
reports a single `Invalid` error at `platform.ibmcloud.resourceGroup`,
not the `NotFound` error the claim states. -/
theorem validateResourceGroup_invalid_not_notFound :
    rgClientMiss.getResourceGroups = Except.ok [⟨"gid", "some-name"⟩] ∧
    validateResourceGroup rgClientMiss rgConfigNotFound ["platform", "ibmcloud"] =
      [FieldError.mkInvalid ["platform", "ibmcloud", "resourceGroup"] "not-found"
        "invalid resource group ID"] ∧
    ErrorType.invalid ≠ ErrorType.notFound := by
  exact ⟨rfl, by decide, by decide⟩

/-- Claim C2, amended: for every `InstallConfig` with a non-empty
`ResourceGroup`, the resource-group validator scans the full
resource-group listing for an exact ID match (names are not consulted)
and reports an `Invalid` error at the resource-group path when zero
group IDs match, and an `InternalError` at the same path when the
listing call itself fails; when `ResourceGroup` is empty, no
resource-group check runs and no error is reported. -/
theorem validateResourceGroup_id_match (client : APIClient) (ic : InstallConfig)
    (fieldPath : List String) :
    (ic.ibmcloud.resourceGroup = "" →
      validateResourceGroup client ic fieldPath = []) ∧
    (ic.ibmcloud.resourceGroup ≠ "" →
      (∀ err, client.getResourceGroups = Except.error err →
        validateResourceGroup client ic fieldPath =
          [FieldError.mkInternalError (fieldPath ++ ["resourceGroup"]) err]) ∧
      (∀ groups, client.getResourceGroups = Except.ok groups →
        (groups.any (fun rg => rg.id == ic.ibmcloud.resourceGroup) = false →
          validateResourceGroup client ic fieldPath =
            [FieldError.mkInvalid (fieldPath ++ ["resourceGroup"])
              ic.ibmcloud.resourceGroup "invalid resource group ID"]) ∧
        (groups.any (fun rg => rg.id == ic.ibmcloud.resourceGroup) = true →
          validateResourceGroup client ic fieldPath = []))) := by
  constructor
  · intro h
    unfold validateResourceGroup
    simp [h]
  · intro h
    refine ⟨fun err herr => ?_, fun groups hok => ⟨fun hmiss => ?_, fun hhit => ?_⟩⟩
    · unfold validateResourceGroup
      simp [h, herr]
    · unfold validateResourceGroup
      simp [h, hok, hmiss]
    · unfold validateResourceGroup
      simp [h, hok, hhit]

theorem validateResourceGroup_id_match_witness :
    validateResourceGroup rgClientMiss rgConfigNotFound ["platform", "ibmcloud"] =
      [FieldError.mkInvalid ["platform", "ibmcloud", "resourceGroup"] "not-found"
        "invalid resource group ID"] :=
  (((validateResourceGroup_id_match rgClientMiss rgConfigNotFound
      ["platform", "ibmcloud"]).2 (by decide)).2
    [⟨"gid", "some-name"⟩] rfl).1 (by decide)

/-- A client for which the CIS instance lookup fails for every CRN other
than the valid one (as the repository's `TestValidate` mock does). -/
def cisFailClient : APIClient :=
  ⟨Except.ok [⟨"gid", "gname"⟩],
   fun crnstr =>
     if crnstr == "crn:v1:bluemix:public:internet-svcs:us-south:a/account:instance::"
     then Except.ok () else Except.error "failed to get cis instances",
   fun _ _ => Except.error "zone not found"⟩

/-- A config whose `CISInstanceCRN` is `"not:found"` and whose
`ResourceGroup` is empty. -/
def cisFailConfig : InstallConfig :=
  ⟨"valid.base.domain",
   ⟨"us-south", "not:found", "valid-rhcos-image", "", "", "", [], none⟩,
   some ⟨""⟩, [⟨""⟩]⟩

/-- Claim C3, code evaluation at the failing input: the CIS-instance
lookup for the configured CRN fails, yet `Validate` returns `nil` —
it never consults the CIS instance or the DNS zone, so no `NotFound`
error at `cisInstanceCRN` is ever produced, contradicting the
repository's own `TestValidate` expectations. -/
theorem validate_never_checks_cis :
    cisFailClient.getCISInstance "not:found" =
      Except.error "failed to get cis instances" ∧
    Validate cisFailClient cisFailConfig = none := by
  exact ⟨rfl, by decide⟩

/-- Claim C4: for every platform fragment in which exactly one of `VPC`
and `Subnets` is non-empty, `ValidateVPCConfig` (which takes no API
client, hence performs no remote lookup) returns exactly one `Required`
error at the path of the empty side; when both are empty or both are
non-empty it returns no error. -/
theorem validateVPCConfig_corequirement (p : Platform) (path : List String) :
    (p.vpc ≠ "" → p.subnets = [] →
      ValidateVPCConfig p path =
        [FieldError.mkRequired (path ++ ["subnets"]) vpcDetails]) ∧
    (p.vpc = "" → p.subnets ≠ [] →
      ValidateVPCConfig p path =
        [FieldError.mkRequired (path ++ ["vpc"]) vpcDetails]) ∧
    (p.vpc = "" → p.subnets = [] → ValidateVPCConfig p path = []) ∧
    (p.vpc ≠ "" → p.subnets ≠ [] → ValidateVPCConfig p path = []) := by
  refine ⟨fun hv hs => ?_, fun hv hs => ?_, fun hv hs => ?_, fun hv hs => ?_⟩ <;>
    unfold ValidateVPCConfig <;>
    simp [hv, hs, List.length_eq_zero, List.length_pos]

/-- A platform fragment whose `VPC` is set and whose `Subnets` are
empty. -/
def vpcOnlyPlatform : Platform :=
  ⟨"us-south", "crn:v1", "valid-rhcos-image", "", "valid-vpc", "", [], none⟩

theorem validateVPCConfig_corequirement_witness :
    ValidateVPCConfig vpcOnlyPlatform ["platform", "ibmcloud"] =
      [FieldError.mkRequired ["platform", "ibmcloud", "subnets"] vpcDetails] :=
  (validateVPCConfig_corequirement vpcOnlyPlatform ["platform", "ibmcloud"]).1
    (by decide) rfl

/-- Claim C10: for every platform fragment in which both `VPC` and
`Subnets` are non-empty, `ValidateVPCConfig` returns the empty error
list whatever the value of `VPCResourceGroup` — in particular an empty
`VPCResourceGroup` alongside a configured `VPC` and `Subnets` is
accepted by the static VPC-configuration check. -/
theorem validateVPCConfig_ignores_vpcResourceGroup (p : Platform)
    (path : List String) (rgName : String) :
    p.vpc ≠ "" → p.subnets ≠ [] →
    ValidateVPCConfig p path = [] ∧
    ValidateVPCConfig { p with vpcResourceGroup := rgName } path = [] := by
  intro hv hs
  constructor <;>
    unfold ValidateVPCConfig <;>
    simp [hv, hs, List.length_eq_zero, List.length_pos]

/-- A platform fragment with `VPC` and `Subnets` configured and an empty
`VPCResourceGroup`. -/
def vpcFullPlatform : Platform :=
  ⟨"us-south", "crn:v1", "valid-rhcos-image", "", "valid-vpc", "",
   ["public-subnet-us-south-1-id"], none⟩

theorem validateVPCConfig_ignores_vpcResourceGroup_witness :
    ValidateVPCConfig vpcFullPlatform ["platform", "ibmcloud"] = [] ∧
    ValidateVPCConfig { vpcFullPlatform with vpcResourceGroup := "valid-vpc-resource-group" }
      ["platform", "ibmcloud"] = [] :=
  validateVPCConfig_ignores_vpcResourceGroup vpcFullPlatform ["platform", "ibmcloud"]
    "valid-vpc-resource-group" (by decide) (by decide)

/-- The errors of a list sitting at one field path. -/
def errorsAt (errs : List FieldError) (path : List String) : List FieldError :=
  errs.filter (fun e => e.field == path)

theorem errorsAt_append (a b : List FieldError) (path : List String) :
    errorsAt (a ++ b) path = errorsAt a path ++ errorsAt b path :=
  List.filter_append a b

theorem errorsAt_singleton_ne (e : FieldError) (path : List String)
    (h : e.field ≠ path) : errorsAt [e] path = [] := by
  simp [errorsAt, h]

theorem errorsAt_singleton_eq (e : FieldError) (path : List String)
    (h : e.field = path) : errorsAt [e] path = [e] := by
  simp [errorsAt, h]

theorem errorsAt_if (c : Prop) [Decidable c] (e : FieldError) (path : List String)
    (h : e.field ≠ path) : errorsAt (if c then [e] else []) path = [] := by
  split
  · exact errorsAt_singleton_ne e path h
  · rfl

/-- `ValidateVPCConfig` never reports at the region path. -/
theorem validateVPCConfig_errorsAt_region (p : Platform) (fldPath : List String) :
    errorsAt (ValidateVPCConfig p fldPath) (fldPath ++ ["region"]) = [] := by
  unfold ValidateVPCConfig
  split
  · rw [errorsAt_append,
      errorsAt_if _ _ _ (by simp [FieldError.mkRequired]),
      errorsAt_if _ _ _ (by simp [FieldError.mkRequired])]
    rfl
  · rfl

/-- Claim C5: for every platform fragment, `ValidatePlatform` reports a
`Required` error at the region path exactly when `Region` is empty, a
`NotSupported` error at the region path exactly when `Region` is
non-empty and absent from the static `Regions` map, and no error at the
region path when `Region` is a key of the map.  Quantified over the CRN
parser behavior and the base field path. -/
theorem validatePlatform_region_errors (crnParse : String → Bool) (p : Platform)
    (fldPath : List String) :
    (p.region = "" →
      errorsAt (ValidatePlatform crnParse p fldPath) (fldPath ++ ["region"]) =
        [FieldError.mkRequired (fldPath ++ ["region"]) "region must be specified"]) ∧
    (p.region ≠ "" → Regions.lookup p.region = none →
      errorsAt (ValidatePlatform crnParse p fldPath) (fldPath ++ ["region"]) =
        [FieldError.mkNotSupported (fldPath ++ ["region"]) p.region regionShortNames]) ∧
    (∀ long, Regions.lookup p.region = some long →
      errorsAt (ValidatePlatform crnParse p fldPath) (fldPath ++ ["region"]) = []) := by
  have hImg : errorsAt
      (if p.clusterOSImage = "" then
        [FieldError.mkRequired (fldPath ++ ["clusterOSImage"]) "clusterOSImage must be specified"]
       else []) (fldPath ++ ["region"]) = [] :=
    errorsAt_if _ _ _ (by simp [FieldError.mkRequired])
  have hCrn : errorsAt
      (if p.cisInstanceCRN = "" then
        [FieldError.mkRequired (fldPath ++ ["cisInstanceCRN"]) "cisInstanceCRN must be specified"]
       else if crnParse p.cisInstanceCRN then []
       else [FieldError.mkInvalid (fldPath ++ ["cisInstanceCRN"]) p.cisInstanceCRN
              "cisInstanceCRN is not a valid IBM CRN"]) (fldPath ++ ["region"]) = [] := by
    split
    · exact errorsAt_singleton_ne _ _ (by simp [FieldError.mkRequired])
    · split
      · rfl
      · exact errorsAt_singleton_ne _ _ (by simp [FieldError.mkInvalid])
  have hVpc := validateVPCConfig_errorsAt_region p fldPath
  have hPool : errorsAt
      (match p.defaultMachinePlatform with
       | some mp => ValidateMachinePool p mp (fldPath ++ ["defaultMachinePlatform"])
       | none => []) (fldPath ++ ["region"]) = [] := by
    cases p.defaultMachinePlatform <;> rfl
  have hsplit : errorsAt (ValidatePlatform crnParse p fldPath) (fldPath ++ ["region"]) =
      errorsAt
        (if p.region = "" then
          [FieldError.mkRequired (fldPath ++ ["region"]) "region must be specified"]
         else if (Regions.lookup p.region).isSome then []
         else [FieldError.mkNotSupported (fldPath ++ ["region"]) p.region regionShortNames])
        (fldPath ++ ["region"]) := by
    unfold ValidatePlatform
    rw [errorsAt_append, errorsAt_append, errorsAt_append, errorsAt_append,
      hImg, hCrn, hVpc, hPool]
    simp
  refine ⟨fun h => ?_, fun h hnone => ?_, fun long hsome => ?_⟩
  · rw [hsplit, if_pos h]
    exact errorsAt_singleton_eq _ _ rfl
  · rw [hsplit, if_neg h, if_neg (by simp [hnone])]
    exact errorsAt_singleton_eq _ _ rfl
  · have hne : p.region ≠ "" := by
      intro heq
      rw [heq] at hsome
      have h0 : Regions.lookup "" = none := by decide
      rw [h0] at hsome
      exact Option.noConfusion hsome
    rw [hsplit, if_neg hne, if_pos (by simp [hsome])]
    rfl

/-- A platform fragment with an empty region. -/
def emptyRegionPlatform : Platform :=
  ⟨"", "crn:v1", "valid-rhcos-image", "", "", "", [], none⟩

theorem validatePlatform_region_errors_witness :
    errorsAt (ValidatePlatform (fun _ => true) emptyRegionPlatform ["platform", "ibmcloud"])
      (["platform", "ibmcloud"] ++ ["region"]) =
      [FieldError.mkRequired (["platform", "ibmcloud"] ++ ["region"])
        "region must be specified"] :=
  (validatePlatform_region_errors (fun _ => true) emptyRegionPlatform
    ["platform", "ibmcloud"]).1 rfl

/-- A zone listing holding a single active matching zone whose `Id` is
the empty string. -/
def zoneListEmptyID : String → Except String (List Zone) :=
  fun _ => Except.ok [⟨"", "example.com", "active"⟩]

/-- Claim C6, counterexample: the listing succeeds and contains a zone
whose `Name` equals the requested domain and whose `Status` is
`"active"`, yet `GetZoneIDByName` returns an error, because that zone's
`Id` is the empty string and the scan leaves `zoneID` empty. -/
theorem getZoneIDByName_empty_id_errors :
    zoneListEmptyID "crn" = Except.ok [⟨"", "example.com", "active"⟩] ∧
    Zone.name ⟨"", "example.com", "active"⟩ = "example.com" ∧
    Zone.status ⟨"", "example.com", "active"⟩ = "active" ∧
    GetZoneIDByName zoneListEmptyID "crn" "example.com" =
      Except.error "zone not found: example.com" := by
  exact ⟨rfl, rfl, rfl, rfl⟩

/-- Claim C6, amended: for every CRN and domain name, `GetZoneIDByName`
propagates a listing failure as that error; when the listing succeeds,
it returns the `Id` of the first zone in listing order whose `Name`
equals the requested name and whose `Status` is `"active"`, provided
that `Id` is non-empty, and returns a "zone not found" error when no
such zone exists or the first such zone has an empty `Id`. -/
theorem getZoneIDByName_first_active_match
    (listZones : String → Except String (List Zone)) (crn name : String) :
    (∀ e, listZones crn = Except.error e →
      GetZoneIDByName listZones crn name = Except.error e) ∧
    (∀ zones, listZones crn = Except.ok zones →
      (zones.find? (fun z => z.name == name && z.status == "active") = none →
        GetZoneIDByName listZones crn name =
          Except.error ("zone not found: " ++ name)) ∧
      (∀ z, zones.find? (fun z => z.name == name && z.status == "active") = some z →
        (z.id ≠ "" → GetZoneIDByName listZones crn name = Except.ok z.id) ∧
        (z.id = "" → GetZoneIDByName listZones crn name =
          Except.error ("zone not found: " ++ name)))) := by
  constructor
  · intro e he
    unfold GetZoneIDByName
    rw [he]
  · intro zones hok
    constructor
    · intro hnone
      unfold GetZoneIDByName
      rw [hok]
      dsimp only
      by_cases h0 : zones.length = 0
      · rw [if_pos h0]
      · rw [if_neg h0, hnone]
        simp
    · intro z hz
      have hlen : ¬ zones.length = 0 := by
        intro h0
        rw [List.length_eq_zero] at h0
        rw [h0] at hz
        simp at hz
      unfold GetZoneIDByName
      rw [hok]
      dsimp only
      rw [if_neg hlen, hz]
      dsimp only
      constructor
      · intro hid
        rw [if_neg hid]
      · intro hid
        rw [hid, if_pos rfl]

/-- A zone listing holding a single active matching zone with a real
`Id`. -/
def zoneListGood : String → Except String (List Zone) :=
  fun _ => Except.ok [⟨"valid-zone-id", "valid.base.domain", "active"⟩]

theorem getZoneIDByName_first_active_match_witness :
    GetZoneIDByName zoneListGood "crn" "valid.base.domain" =
      Except.ok "valid-zone-id" :=
  (((getZoneIDByName_first_active_match zoneListGood "crn" "valid.base.domain").2
      [⟨"valid-zone-id", "valid.base.domain", "active"⟩] rfl).2
    ⟨"valid-zone-id", "valid.base.domain", "active"⟩ (by decide)).1 (by decide)

end Installer
